import Mathlib

/-!
Shallow embedding of the York-SDCNLab/Solution1 control harness.

Sources embedded:
* `src/plan_vision_linefollow/qcar.py` — `VLFCar`, `EVLFControl`, `EVLFObserver`
* `src/quanser_pkgs/.../qlabs_setup.py` — `setup`
* `src/core/util.py` — `handle_interprocess`

Python floats are modelled as exact rationals (ℚ); the imported `math.cos`
is modelled as an explicit function parameter `mcos : ℚ → ℚ`, mirroring that
the code calls an external library function.  Side effects (camera reads,
actuator writes, sleeps, prints) are recorded as an explicit trace of steps.
-/

namespace Solution1

/-- An actuator command written by `QCar.read_write_std`: the throttle and
steering arguments of one call (the constant LED array is omitted). -/
structure Command where
  throttle : ℚ
  steering : ℚ
deriving DecidableEq

/-- One observable side effect of a control cycle, in order of occurrence:
reading the shared event flags, reading a camera image, calling
`policy.execute_policy`, writing one actuator command, `time.sleep`, or
printing an exception message. -/
inductive Step where
  | readFlags : Step
  | readImage : Step
  | policyCall : Step
  | writeCommand : Command → Step
  | sleepFor : ℚ → Step
  | printMsg : String → Step
deriving DecidableEq

/-- The commands written during a trace, in order. -/
def commandsOf : List Step → List Command
  | [] => []
  | Step.writeCommand c :: rest => c :: commandsOf rest
  | _ :: rest => commandsOf rest

/-- Whether a step is a `time.sleep` call. -/
def isSleep : Step → Bool
  | Step.sleepFor _ => true
  | _ => false

/-- The observable state of the `VisualLineFollowing` policy object used by
`qcar.py`: its `steering`, `throttle` and `start` attributes.  The policy's
internals (`policy.py`) are a black box; `execute_policy` outcomes are an
input of the cycle (`CycleOutcome`). -/
structure Policy where
  steering : ℚ
  throttle : ℚ
  start : ℚ
deriving DecidableEq

/-- Modelled from the spec: `EventWrapper` is imported from
`plan_vision_linefollow.utils`, which is not part of this snapshot; the spec
describes it as "a single shared boolean-flag structure".  `event_is_set`
embeds `event_wrapper.event.is_set()` and the three boolean fields embed the
entries of the `event_types` dict read by `EVLFControl.handle_events`. -/
structure EventWrapper where
  event_is_set : Bool
  horizontal_line : Bool
  red_light : Bool
  stop_sign : Bool
deriving DecidableEq

/-- Embeds the `StopException` raised by `handle_events` and caught by
`EVLFControl.execute`: it carries a `stop_time`. -/
structure StopException where
  stop_time : ℚ
deriving DecidableEq

/-- The mutable attributes of an `EVLFControl` instance that `handle_events`
and `execute` read or write: the policy object, `reduce_factor`,
`halt_steering` and the control's own `start` timestamp. -/
structure ControlState where
  policy : Policy
  reduce_factor : ℚ
  halt_steering : ℚ
  start : ℚ
deriving DecidableEq

/-- The outcome of the `read_image` / `execute_policy` phase of one cycle:
either the policy succeeds and its `steering`/`throttle` attributes now hold
the given values, or `read_image` raises `NoImageException`, or
`execute_policy` raises `NoContourException`, or some other exception with
the given message is raised. -/
inductive CycleOutcome where
  | ok : ℚ → ℚ → CycleOutcome
  | noImage : CycleOutcome
  | noContour : CycleOutcome
  | failure : String → CycleOutcome
deriving DecidableEq

/-- Result of one `EVLFControl.execute` cycle: the updated object state, the
trace of side effects, and the exception re-raised out of the cycle, if any. -/
structure ExecResult where
  state : ControlState
  trace : List Step
  raised : Option String
deriving DecidableEq

/-- Embeds `VLFCar.halt_car`: one `read_write_std` call with `throttle=0` at
the given steering. -/
def halt_car (steering : ℚ) : Command := ⟨0, steering⟩

/-- Embeds `EVLFControl.handle_events` (qcar.py lines 132–154).  Returns the
updated state together with the `StopException` raised, if any: when the
shared event is set, `reduce_factor` becomes `0.67` if `horizontal_line` is
set and `1.0` otherwise; then a set `red_light` records `halt_steering :=
policy.steering` and raises `StopException(0.1)`, otherwise a set
`stop_sign` records `halt_steering := 0.0` and raises `StopException(3)`.
When the shared event is not set, `reduce_factor` is reset to `1.0`. -/
def handle_events (ev : EventWrapper) (s : ControlState) :
    ControlState × Option StopException :=
  if ev.event_is_set then
    let s1 := { s with reduce_factor := if ev.horizontal_line then 67/100 else 1 }
    if ev.red_light then
      ({ s1 with halt_steering := s1.policy.steering }, some ⟨1/10⟩)
    else if ev.stop_sign then
      ({ s1 with halt_steering := 0 }, some ⟨3⟩)
    else
      (s1, none)
  else
    ({ s with reduce_factor := 1 }, none)

/-- Embeds `EVLFControl.execute` (qcar.py lines 156–187), one cycle of the
control loop.  `mcos` embeds `math.cos`, `now` the value of `time.time()`
during this cycle, `outcome` the result of the `read_image`/`execute_policy`
phase.  The body first calls `handle_events`; a `StopException` jumps to the
handler which calls `halt_car(self.halt_steering)`, sleeps `stop_time` and
resets `policy.start`.  Otherwise the image is read, the policy is run, the
control's `start` is refreshed and one command is written with the policy's
steering and `policy.throttle * abs(math.cos(2.0 * steering)) *
reduce_factor` as throttle.  `NoContourException`/`NoImageException` are
swallowed; any other exception is printed and re-raised. -/
def EVLFControl.execute (mcos : ℚ → ℚ) (now : ℚ) (ev : EventWrapper)
    (outcome : CycleOutcome) (s : ControlState) : ExecResult :=
  match handle_events ev s with
  | (s1, some e) =>
    { state := { s1 with policy := { s1.policy with start := now } }
      trace := [Step.readFlags, Step.writeCommand (halt_car s1.halt_steering),
                Step.sleepFor e.stop_time]
      raised := none }
  | (s1, none) =>
    match outcome with
    | CycleOutcome.noImage =>
      { state := s1, trace := [Step.readFlags, Step.readImage], raised := none }
    | CycleOutcome.noContour =>
      { state := s1, trace := [Step.readFlags, Step.readImage, Step.policyCall]
        raised := none }
    | CycleOutcome.failure msg =>
      { state := s1
        trace := [Step.readFlags, Step.readImage, Step.policyCall, Step.printMsg msg]
        raised := some msg }
    | CycleOutcome.ok st th =>
      { state := { s1 with
                    policy := { s1.policy with steering := st, throttle := th }
                    start := now }
        trace := [Step.readFlags, Step.readImage, Step.policyCall,
                  Step.writeCommand ⟨th * |mcos (2 * st)| * s1.reduce_factor, st⟩]
        raised := none }

/-- Result of one `VLFCar.execute` cycle: the updated policy, the trace of
side effects, and the exception propagated out of the cycle, if any. -/
structure VLFResult where
  policy : Policy
  trace : List Step
  raised : Option String
deriving DecidableEq

/-- Embeds `VLFCar.execute` (qcar.py lines 77–95), one cycle of the plain
line-following loop: read the image, run the policy, write one command with
the policy's steering and `policy.throttle * abs(math.cos(2.05 * steering))`
as throttle.  Only `NoContourException` and `NoImageException` are caught
(and swallowed); other exceptions propagate. -/
def VLFCar.execute (mcos : ℚ → ℚ) (outcome : CycleOutcome) (p : Policy) :
    VLFResult :=
  match outcome with
  | CycleOutcome.noImage =>
    { policy := p, trace := [Step.readImage], raised := none }
  | CycleOutcome.noContour =>
    { policy := p, trace := [Step.readImage, Step.policyCall], raised := none }
  | CycleOutcome.failure msg =>
    { policy := p, trace := [Step.readImage, Step.policyCall], raised := some msg }
  | CycleOutcome.ok st th =>
    { policy := { p with steering := st, throttle := th }
      trace := [Step.readImage, Step.policyCall,
                Step.writeCommand ⟨th * |mcos (41/20 * st)|, st⟩]
      raised := none }

/-- Modelled from the spec: `EventWrapper.set(key)` on the shared flag map
(`plan_vision_linefollow/utils.py` is not in this snapshot; the spec calls it
"a single shared boolean-flag structure ... last-write-wins flags").  Sets
the flag named `k` to true. -/
def setFlag (events : String → Bool) (k : String) : String → Bool :=
  fun q => if q = k then true else events q

/-- Modelled from the spec: `EventWrapper.clear(key)` on the shared flag map
(see `setFlag`).  Sets the flag named `k` to false. -/
def clearFlag (events : String → Bool) (k : String) : String → Bool :=
  fun q => if q = k then false else events q

/-- The per-key publishing loop of `EVLFObserver.execute` (qcar.py lines
240–244): for each `(key, value)` of `detection_flags` in order, `set(key)`
if the value is true and `clear(key)` otherwise. -/
def applyFlags (events : String → Bool) : List (String × Bool) → (String → Bool)
  | [] => events
  | (k, v) :: rest =>
    applyFlags (if v then setFlag events k else clearFlag events k) rest

/-- Result of one `EVLFObserver.execute` cycle: the shared flag map after the
cycle and how many times the perception pipeline was invoked. -/
structure ObserverResult where
  events : String → Bool
  pipelineRuns : Nat

/-- Embeds `EVLFObserver.execute` (qcar.py lines 228–248).  `rgbd_image` is
the value returned by `read_rgb_image()`; `detection_flags` the pipeline's
detection dictionary as an ordered key/value list (keys distinct, as in a
Python dict).  When the image is `None` nothing happens; otherwise the
pipeline runs once and every detection flag is republished to the shared
flag map. -/
def EVLFObserver.execute {Image : Type} (rgbd_image : Option Image)
    (detection_flags : List (String × Bool)) (events : String → Bool) :
    ObserverResult :=
  match rgbd_image with
  | none => { events := events, pipelineRuns := 0 }
  | some _ => { events := applyFlags events detection_flags, pipelineRuns := 1 }

/-- One call made by `qlabs_setup.setup` (qlabs_setup.py lines 10–47), in
order: `os.system`, `print`, `quit()`, `destroy_all_spawned_actors`,
`terminate_all_real_time_models`, `QLabsQCar.spawn_id` (actor number,
location, rotation, waitForConfirmation), `QLabsFreeCamera.spawn`,
`QLabsQCar.possess`, `start_real_time_model`. -/
inductive SetupAction where
  | system : String → SetupAction
  | print : String → SetupAction
  | quitProgram : SetupAction
  | destroyAllSpawnedActors : SetupAction
  | terminateAllRealTimeModels : SetupAction
  | spawnQCar : Nat → List ℚ → List ℚ → Bool → SetupAction
  | spawnCamera : List ℚ → List ℚ → SetupAction
  | possess : SetupAction
  | startRealTimeModel : String → SetupAction
deriving DecidableEq

/-- Whether an action spawns anything (a QCar or a camera). -/
def isSpawn : SetupAction → Bool
  | SetupAction.spawnQCar _ _ _ _ => true
  | SetupAction.spawnCamera _ _ => true
  | _ => false

/-- Whether an action spawns a QCar. -/
def isQCarSpawn : SetupAction → Bool
  | SetupAction.spawnQCar _ _ _ _ => true
  | _ => false

/-- Whether an action starts a real-time model. -/
def isModelStart : SetupAction → Bool
  | SetupAction.startRealTimeModel _ => true
  | _ => false

/-- Embeds `qlabs_setup.setup`.  `connectOk` is whether `qlabs.open` on
"localhost" succeeds; `initialPosition`, `initialOrientation` and `rtModel`
are the function's parameters.  On failure the except branch prints
"Unable to connect to QLabs" and `quit()`s; on success the script destroys
all spawned actors, terminates all real-time models, spawns one QCar at the
given pose (actor 0, waiting for confirmation), spawns a free camera at a
fixed pose, possesses the QCar, and starts the real-time model. -/
def setup (connectOk : Bool) (initialPosition initialOrientation : List ℚ)
    (rtModel : String) : List SetupAction :=
  [SetupAction.system "cls", SetupAction.print "Connecting to QLabs..."] ++
  (if connectOk then
    [SetupAction.print "Connected to QLabs",
     SetupAction.destroyAllSpawnedActors,
     SetupAction.terminateAllRealTimeModels,
     SetupAction.spawnQCar 0 initialPosition initialOrientation true,
     SetupAction.spawnCamera [8484/1000, 1973/1000, 12209/1000] [-0, 748/1000, 792/1000],
     SetupAction.possess,
     SetupAction.startRealTimeModel rtModel]
  else
    [SetupAction.print "Unable to connect to QLabs", SetupAction.quitProgram])

/-- A Python exception relevant to `handle_interprocess`: `queue.Full`,
`queue.Empty`, or the `AttributeError` raised when an attribute lookup
fails. -/
inductive PyExc where
  | full : PyExc
  | empty : PyExc
  | attributeError : PyExc
deriving DecidableEq

/-- A bounded `multiprocessing` queue: its items in FIFO order and its
capacity. -/
structure PyQueue (α : Type) where
  items : List α
  capacity : Nat
deriving DecidableEq

/-- Embeds `Queue.put(item, block, timeout)` in the mode where a full queue
raises `Full` (`block=False`, or a finite timeout that elapses; with
`block=True, timeout=None` a full queue blocks forever instead and never
reaches the except clause). -/
def PyQueue.put {α : Type} (q : PyQueue α) (item : α) :
    Except PyExc (PyQueue α) :=
  if q.items.length < q.capacity then
    Except.ok { q with items := q.items ++ [item] }
  else
    Except.error PyExc.full

/-- Embeds `Queue.get_nowait()`: pops the oldest item, raising `Empty` on an
empty queue. -/
def PyQueue.get_nowait {α : Type} (q : PyQueue α) :
    Except PyExc (α × PyQueue α) :=
  match q.items with
  | [] => Except.error PyExc.empty
  | x :: xs => Except.ok (x, { q with items := xs })

/-- Embeds `handle_interprocess` (src/core/util.py lines 12–17).  The except
clause is written `except Queue.Full`, where `Queue` is the
`multiprocessing.Queue` factory imported at the top of util.py; that object
has no `Full` attribute (the class lives in the stdlib `queue` module), so
under CPython semantics, when `put` raises `Full`, evaluating the except
clause raises `AttributeError` and the `get_nowait`/`put` recovery never
runs. -/
def handle_interprocess {α : Type} (data_queue : PyQueue α) (item : α) :
    Except PyExc (PyQueue α) :=
  match data_queue.put item with
  | Except.ok q => Except.ok q
  | Except.error _ => Except.error PyExc.attributeError

/-- Publishing a list of flags does not touch keys that do not occur in it. -/
theorem applyFlags_of_not_mem (l : List (String × Bool)) (events : String → Bool)
    (k : String) (hk : k ∉ l.map Prod.fst) : applyFlags events l k = events k := by
  induction l generalizing events with
  | nil => rfl
  | cons a rest ih =>
    obtain ⟨k0, v0⟩ := a
    simp only [List.map_cons, List.mem_cons] at hk
    push_neg at hk
    rw [applyFlags, ih _ hk.2]
    rcases v0 with _ | _ <;> simp [setFlag, clearFlag, hk.1]

/-- Publishing a list of flags with distinct keys leaves each listed key at
its listed value. -/
theorem applyFlags_of_mem (l : List (String × Bool)) (events : String → Bool)
    (k : String) (v : Bool) (hnd : (l.map Prod.fst).Nodup) (hmem : (k, v) ∈ l) :
    applyFlags events l k = v := by
  induction l generalizing events with
  | nil => exact absurd hmem (List.not_mem_nil _)
  | cons a rest ih =>
    obtain ⟨k0, v0⟩ := a
    simp only [List.map_cons, List.nodup_cons] at hnd
    rcases List.mem_cons.1 hmem with heq | hmem2
    · cases heq
      have hnot : k ∉ rest.map Prod.fst := hnd.1
      rw [applyFlags, applyFlags_of_not_mem rest _ k hnot]
      rcases v with _ | _ <;> simp [setFlag, clearFlag]
    · exact ih _ hnd.2 hmem2

/-- C1: in every control cycle where the shared event is set and the
`red_light` flag is true, `handle_events` records `halt_steering` equal to
the policy's current steering and raises `StopException` with stop time
`0.1`; `execute` catches it, writes exactly one actuator command with
throttle `0` at the recorded steering, sleeps for the stop time, resets the
policy's start time to the current time, and writes no policy-computed
command in that cycle. -/
theorem red_light_cycle_halts_at_policy_steering (mcos : ℚ → ℚ) (now : ℚ)
    (ev : EventWrapper) (outcome : CycleOutcome) (s : ControlState)
    (hset : ev.event_is_set = true) (hred : ev.red_light = true) :
    (handle_events ev s).1.halt_steering = s.policy.steering ∧
    (handle_events ev s).2 = some ⟨1/10⟩ ∧
    (EVLFControl.execute mcos now ev outcome s).trace =
      [Step.readFlags, Step.writeCommand ⟨0, s.policy.steering⟩,
       Step.sleepFor (1/10)] ∧
    commandsOf (EVLFControl.execute mcos now ev outcome s).trace =
      [⟨0, s.policy.steering⟩] ∧
    (EVLFControl.execute mcos now ev outcome s).state.policy.start = now ∧
    (EVLFControl.execute mcos now ev outcome s).raised = none := by
  refine ⟨?_, ?_, ?_, ?_, ?_, ?_⟩ <;>
    simp [EVLFControl.execute, handle_events, halt_car, commandsOf, hset, hred]

theorem red_light_cycle_halts_at_policy_steering_witness :
    (⟨true, false, true, false⟩ : EventWrapper).event_is_set = true ∧
    (⟨true, false, true, false⟩ : EventWrapper).red_light = true ∧
    ((handle_events ⟨true, false, true, false⟩ ⟨⟨2, 3, 4⟩, 1, 0, 0⟩).1.halt_steering = (2 : ℚ) ∧
     (handle_events ⟨true, false, true, false⟩ ⟨⟨2, 3, 4⟩, 1, 0, 0⟩).2 = some ⟨1/10⟩ ∧
     (EVLFControl.execute (fun x => x) 5 ⟨true, false, true, false⟩
        (CycleOutcome.ok 1 1) ⟨⟨2, 3, 4⟩, 1, 0, 0⟩).trace =
       [Step.readFlags, Step.writeCommand ⟨0, 2⟩, Step.sleepFor (1/10)] ∧
     commandsOf (EVLFControl.execute (fun x => x) 5 ⟨true, false, true, false⟩
        (CycleOutcome.ok 1 1) ⟨⟨2, 3, 4⟩, 1, 0, 0⟩).trace = [⟨0, 2⟩] ∧
     (EVLFControl.execute (fun x => x) 5 ⟨true, false, true, false⟩
        (CycleOutcome.ok 1 1) ⟨⟨2, 3, 4⟩, 1, 0, 0⟩).state.policy.start = 5 ∧
     (EVLFControl.execute (fun x => x) 5 ⟨true, false, true, false⟩
        (CycleOutcome.ok 1 1) ⟨⟨2, 3, 4⟩, 1, 0, 0⟩).raised = none) :=
  ⟨rfl, rfl, red_light_cycle_halts_at_policy_steering (fun x => x) 5
    ⟨true, false, true, false⟩ (CycleOutcome.ok 1 1) ⟨⟨2, 3, 4⟩, 1, 0, 0⟩ rfl rfl⟩

/-- C2: in every control cycle where the shared event is set, `red_light` is
false and `stop_sign` is true, `handle_events` sets `halt_steering` to `0.0`
and raises `StopException` with stop time `3`, so `execute` halts the car
with throttle `0` and steering `0` and sleeps 3 seconds. -/
theorem stop_sign_cycle_halts_three_seconds (mcos : ℚ → ℚ) (now : ℚ)
    (ev : EventWrapper) (outcome : CycleOutcome) (s : ControlState)
    (hset : ev.event_is_set = true) (hred : ev.red_light = false)
    (hstop : ev.stop_sign = true) :
    (handle_events ev s).1.halt_steering = 0 ∧
    (handle_events ev s).2 = some ⟨3⟩ ∧
    (EVLFControl.execute mcos now ev outcome s).trace =
      [Step.readFlags, Step.writeCommand ⟨0, 0⟩, Step.sleepFor 3] ∧
    commandsOf (EVLFControl.execute mcos now ev outcome s).trace = [⟨0, 0⟩] ∧
    (EVLFControl.execute mcos now ev outcome s).raised = none := by
  refine ⟨?_, ?_, ?_, ?_, ?_⟩ <;>
    simp [EVLFControl.execute, handle_events, halt_car, commandsOf, hset, hred, hstop]

theorem stop_sign_cycle_halts_three_seconds_witness :
    (⟨true, false, false, true⟩ : EventWrapper).event_is_set = true ∧
    (⟨true, false, false, true⟩ : EventWrapper).red_light = false ∧
    (⟨true, false, false, true⟩ : EventWrapper).stop_sign = true ∧
    ((handle_events ⟨true, false, false, true⟩ ⟨⟨2, 3, 4⟩, 1, 0, 0⟩).1.halt_steering = 0 ∧
     (handle_events ⟨true, false, false, true⟩ ⟨⟨2, 3, 4⟩, 1, 0, 0⟩).2 = some ⟨3⟩ ∧
     (EVLFControl.execute (fun x => x) 5 ⟨true, false, false, true⟩
        (CycleOutcome.ok 1 1) ⟨⟨2, 3, 4⟩, 1, 0, 0⟩).trace =
       [Step.readFlags, Step.writeCommand ⟨0, 0⟩, Step.sleepFor 3] ∧
     commandsOf (EVLFControl.execute (fun x => x) 5 ⟨true, false, false, true⟩
        (CycleOutcome.ok 1 1) ⟨⟨2, 3, 4⟩, 1, 0, 0⟩).trace = [⟨0, 0⟩] ∧
     (EVLFControl.execute (fun x => x) 5 ⟨true, false, false, true⟩
        (CycleOutcome.ok 1 1) ⟨⟨2, 3, 4⟩, 1, 0, 0⟩).raised = none) :=
  ⟨rfl, rfl, rfl, stop_sign_cycle_halts_three_seconds (fun x => x) 5
    ⟨true, false, false, true⟩ (CycleOutcome.ok 1 1) ⟨⟨2, 3, 4⟩, 1, 0, 0⟩ rfl rfl rfl⟩

/-- C7: when the shared event is set and both `red_light` and `stop_sign` are
true, the red-light branch wins: `handle_events` raises `StopException` with
stop time `0.1` (not the stop-sign `3`) and records `halt_steering` equal to
the policy's current steering (not the stop-sign `0`). -/
theorem red_light_wins_over_stop_sign (mcos : ℚ → ℚ) (now : ℚ)
    (ev : EventWrapper) (outcome : CycleOutcome) (s : ControlState)
    (hset : ev.event_is_set = true) (hred : ev.red_light = true)
    (_hstop : ev.stop_sign = true) :
    (handle_events ev s).2 = some ⟨1/10⟩ ∧
    (handle_events ev s).2 ≠ some ⟨3⟩ ∧
    (handle_events ev s).1.halt_steering = s.policy.steering ∧
    (EVLFControl.execute mcos now ev outcome s).trace =
      [Step.readFlags, Step.writeCommand ⟨0, s.policy.steering⟩,
       Step.sleepFor (1/10)] := by
  refine ⟨?_, ?_, ?_, ?_⟩ <;>
    simp [EVLFControl.execute, handle_events, halt_car, hset, hred]
  norm_num

theorem red_light_wins_over_stop_sign_witness :
    (⟨true, true, true, true⟩ : EventWrapper).event_is_set = true ∧
    (⟨true, true, true, true⟩ : EventWrapper).red_light = true ∧
    (⟨true, true, true, true⟩ : EventWrapper).stop_sign = true ∧
    ((handle_events ⟨true, true, true, true⟩ ⟨⟨2, 3, 4⟩, 1, 0, 0⟩).2 = some ⟨1/10⟩ ∧
     (handle_events ⟨true, true, true, true⟩ ⟨⟨2, 3, 4⟩, 1, 0, 0⟩).2 ≠ some ⟨3⟩ ∧
     (handle_events ⟨true, true, true, true⟩ ⟨⟨2, 3, 4⟩, 1, 0, 0⟩).1.halt_steering = (2 : ℚ) ∧
     (EVLFControl.execute (fun x => x) 5 ⟨true, true, true, true⟩
        (CycleOutcome.ok 1 1) ⟨⟨2, 3, 4⟩, 1, 0, 0⟩).trace =
       [Step.readFlags, Step.writeCommand ⟨0, 2⟩, Step.sleepFor (1/10)]) :=
  ⟨rfl, rfl, rfl, red_light_wins_over_stop_sign (fun x => x) 5
    ⟨true, true, true, true⟩ (CycleOutcome.ok 1 1) ⟨⟨2, 3, 4⟩, 1, 0, 0⟩ rfl rfl rfl⟩

/-- C3: in every non-stopping control cycle (shared event not set, or set
with both `red_light` and `stop_sign` clear) whose policy phase succeeds,
`execute`'s trace is exactly: read the shared event flags, read one camera
image, call the policy once, write one actuator command whose steering is
the policy's steering and whose throttle is the policy's throttle times
`abs(cos(2.0 * steering))` times the reduce factor. -/
theorem non_stopping_cycle_trace (mcos : ℚ → ℚ) (now : ℚ)
    (ev1 ev2 : EventWrapper) (s : ControlState) (st th : ℚ)
    (h1 : ev1.event_is_set = false)
    (h2 : ev2.event_is_set = true) (h2r : ev2.red_light = false)
    (h2s : ev2.stop_sign = false) :
    (EVLFControl.execute mcos now ev1 (CycleOutcome.ok st th) s).trace =
      [Step.readFlags, Step.readImage, Step.policyCall,
       Step.writeCommand ⟨th * |mcos (2 * st)| * 1, st⟩] ∧
    (EVLFControl.execute mcos now ev2 (CycleOutcome.ok st th) s).trace =
      [Step.readFlags, Step.readImage, Step.policyCall,
       Step.writeCommand
         ⟨th * |mcos (2 * st)| * (if ev2.horizontal_line then 67/100 else 1), st⟩] ∧
    (EVLFControl.execute mcos now ev1 (CycleOutcome.ok st th)
        s).state.policy.steering = st := by
  refine ⟨?_, ?_, ?_⟩ <;>
    simp [EVLFControl.execute, handle_events, h1, h2, h2r, h2s]

theorem non_stopping_cycle_trace_witness :
    (⟨false, false, false, false⟩ : EventWrapper).event_is_set = false ∧
    (⟨true, true, false, false⟩ : EventWrapper).event_is_set = true ∧
    (⟨true, true, false, false⟩ : EventWrapper).red_light = false ∧
    (⟨true, true, false, false⟩ : EventWrapper).stop_sign = false ∧
    ((EVLFControl.execute (fun x => x) 5 ⟨false, false, false, false⟩
        (CycleOutcome.ok 1 1) ⟨⟨2, 3, 4⟩, 1, 0, 0⟩).trace =
      [Step.readFlags, Step.readImage, Step.policyCall,
       Step.writeCommand ⟨1 * |(fun x => x) (2 * 1)| * 1, 1⟩] ∧
     (EVLFControl.execute (fun x => x) 5 ⟨true, true, false, false⟩
        (CycleOutcome.ok 1 1) ⟨⟨2, 3, 4⟩, 1, 0, 0⟩).trace =
      [Step.readFlags, Step.readImage, Step.policyCall,
       Step.writeCommand ⟨1 * |(fun x => x) (2 * 1)| *
         (if (⟨true, true, false, false⟩ : EventWrapper).horizontal_line
          then 67/100 else 1), 1⟩] ∧
     (EVLFControl.execute (fun x => x) 5 ⟨false, false, false, false⟩
        (CycleOutcome.ok 1 1) ⟨⟨2, 3, 4⟩, 1, 0, 0⟩).state.policy.steering = 1) :=
  ⟨rfl, rfl, rfl, rfl, non_stopping_cycle_trace (fun x => x) 5
    ⟨false, false, false, false⟩ ⟨true, true, false, false⟩
    ⟨⟨2, 3, 4⟩, 1, 0, 0⟩ 1 1 rfl rfl rfl rfl⟩

/-- C5: in every cycle where the shared event is set — stopping or not — the
reduce factor becomes `0.67` if `horizontal_line` is set and `1.0`
otherwise; in every cycle where the shared event is not set it is reset to
`1.0`; and the command written in a non-stopping successful cycle has its
throttle scaled by that factor. -/
theorem reduce_factor_behavior (mcos : ℚ → ℚ) (now : ℚ)
    (ev1 ev2 ev3 : EventWrapper) (s : ControlState) (st th : ℚ)
    (h1 : ev1.event_is_set = false)
    (h2 : ev2.event_is_set = true)
    (h3 : ev3.event_is_set = true) (h3r : ev3.red_light = false)
    (h3s : ev3.stop_sign = false) :
    (handle_events ev1 s).1.reduce_factor = 1 ∧
    (handle_events ev2 s).1.reduce_factor =
      (if ev2.horizontal_line then 67/100 else 1) ∧
    commandsOf (EVLFControl.execute mcos now ev1 (CycleOutcome.ok st th) s).trace =
      [⟨th * |mcos (2 * st)| * 1, st⟩] ∧
    commandsOf (EVLFControl.execute mcos now ev3 (CycleOutcome.ok st th) s).trace =
      [⟨th * |mcos (2 * st)| *
        (if ev3.horizontal_line then 67/100 else 1), st⟩] := by
  refine ⟨?_, ?_, ?_, ?_⟩
  · simp [handle_events, h1]
  · cases hr : ev2.red_light <;> cases hs : ev2.stop_sign <;>
      simp [handle_events, h2, hr, hs]
  · simp [EVLFControl.execute, handle_events, commandsOf, h1]
  · simp [EVLFControl.execute, handle_events, commandsOf, h3, h3r, h3s]

theorem reduce_factor_behavior_witness :
    (⟨false, false, false, false⟩ : EventWrapper).event_is_set = false ∧
    (⟨true, true, true, true⟩ : EventWrapper).event_is_set = true ∧
    (⟨true, true, false, false⟩ : EventWrapper).event_is_set = true ∧
    (⟨true, true, false, false⟩ : EventWrapper).red_light = false ∧
    (⟨true, true, false, false⟩ : EventWrapper).stop_sign = false ∧
    ((handle_events ⟨false, false, false, false⟩ ⟨⟨2, 3, 4⟩, 5, 0, 0⟩).1.reduce_factor = 1 ∧
     (handle_events ⟨true, true, true, true⟩ ⟨⟨2, 3, 4⟩, 5, 0, 0⟩).1.reduce_factor =
       (if (⟨true, true, true, true⟩ : EventWrapper).horizontal_line
        then 67/100 else 1) ∧
     commandsOf (EVLFControl.execute (fun x => x) 5 ⟨false, false, false, false⟩
        (CycleOutcome.ok 1 1) ⟨⟨2, 3, 4⟩, 5, 0, 0⟩).trace =
       [⟨1 * |(fun x => x) (2 * 1)| * 1, 1⟩] ∧
     commandsOf (EVLFControl.execute (fun x => x) 5 ⟨true, true, false, false⟩
        (CycleOutcome.ok 1 1) ⟨⟨2, 3, 4⟩, 5, 0, 0⟩).trace =
       [⟨1 * |(fun x => x) (2 * 1)| *
         (if (⟨true, true, false, false⟩ : EventWrapper).horizontal_line
          then 67/100 else 1), 1⟩]) :=
  ⟨rfl, rfl, rfl, rfl, rfl, reduce_factor_behavior (fun x => x) 5
    ⟨false, false, false, false⟩ ⟨true, true, true, true⟩ ⟨true, true, false, false⟩
    ⟨⟨2, 3, 4⟩, 5, 0, 0⟩ 1 1 rfl rfl rfl rfl rfl⟩

/-- C4: the control loop distinguishes exactly three exception types.
`NoContourException` and `NoImageException` make `EVLFControl.execute`
silently skip the rest of the cycle (no command written, nothing re-raised,
no sleep); only a `StopException` pauses actuation (one halt command plus a
sleep); any other exception is printed and re-raised.  `VLFCar.execute`
likewise swallows `NoContourException` and `NoImageException` without
writing a command, and lets other exceptions propagate. -/
theorem exception_dispatch (mcos : ℚ → ℚ) (now : ℚ) (ev evStop : EventWrapper)
    (s : ControlState) (p : Policy) (msg : String) (outcome : CycleOutcome)
    (hns : ev.event_is_set = false)
    (hset : evStop.event_is_set = true) (hred : evStop.red_light = true) :
    (EVLFControl.execute mcos now ev CycleOutcome.noContour s).trace =
      [Step.readFlags, Step.readImage, Step.policyCall] ∧
    (EVLFControl.execute mcos now ev CycleOutcome.noContour s).raised = none ∧
    commandsOf (EVLFControl.execute mcos now ev CycleOutcome.noContour s).trace = [] ∧
    (EVLFControl.execute mcos now ev CycleOutcome.noImage s).trace =
      [Step.readFlags, Step.readImage] ∧
    (EVLFControl.execute mcos now ev CycleOutcome.noImage s).raised = none ∧
    commandsOf (EVLFControl.execute mcos now ev CycleOutcome.noImage s).trace = [] ∧
    (EVLFControl.execute mcos now ev (CycleOutcome.failure msg) s).raised = some msg ∧
    (EVLFControl.execute mcos now ev (CycleOutcome.failure msg) s).trace =
      [Step.readFlags, Step.readImage, Step.policyCall, Step.printMsg msg] ∧
    commandsOf (EVLFControl.execute mcos now ev (CycleOutcome.failure msg) s).trace = [] ∧
    ((EVLFControl.execute mcos now ev CycleOutcome.noContour s).trace.countP isSleep = 0 ∧
     (EVLFControl.execute mcos now ev CycleOutcome.noImage s).trace.countP isSleep = 0 ∧
     (EVLFControl.execute mcos now ev (CycleOutcome.failure msg) s).trace.countP isSleep = 0) ∧
    (EVLFControl.execute mcos now evStop outcome s).trace.countP isSleep = 1 ∧
    commandsOf (EVLFControl.execute mcos now evStop outcome s).trace =
      [⟨0, s.policy.steering⟩] ∧
    (VLFCar.execute mcos CycleOutcome.noContour p).raised = none ∧
    commandsOf (VLFCar.execute mcos CycleOutcome.noContour p).trace = [] ∧
    (VLFCar.execute mcos CycleOutcome.noImage p).raised = none ∧
    commandsOf (VLFCar.execute mcos CycleOutcome.noImage p).trace = [] ∧
    (VLFCar.execute mcos (CycleOutcome.failure msg) p).raised = some msg := by
  refine ⟨?_, ?_, ?_, ?_, ?_, ?_, ?_, ?_, ?_, ⟨?_, ?_, ?_⟩, ?_, ?_, ?_, ?_, ?_, ?_, ?_⟩ <;>
    simp [EVLFControl.execute, VLFCar.execute, handle_events, halt_car,
      commandsOf, isSleep, List.countP, List.countP.go, hns, hset, hred]

theorem exception_dispatch_witness :
    (⟨false, false, false, false⟩ : EventWrapper).event_is_set = false ∧
    (⟨true, false, true, false⟩ : EventWrapper).event_is_set = true ∧
    (⟨true, false, true, false⟩ : EventWrapper).red_light = true ∧
    ((EVLFControl.execute (fun x => x) 5 ⟨false, false, false, false⟩
        CycleOutcome.noContour ⟨⟨2, 3, 4⟩, 1, 0, 0⟩).trace =
      [Step.readFlags, Step.readImage, Step.policyCall] ∧
     (EVLFControl.execute (fun x => x) 5 ⟨false, false, false, false⟩
        CycleOutcome.noContour ⟨⟨2, 3, 4⟩, 1, 0, 0⟩).raised = none ∧
     commandsOf (EVLFControl.execute (fun x => x) 5 ⟨false, false, false, false⟩
        CycleOutcome.noContour ⟨⟨2, 3, 4⟩, 1, 0, 0⟩).trace = [] ∧
     (EVLFControl.execute (fun x => x) 5 ⟨false, false, false, false⟩
        CycleOutcome.noImage ⟨⟨2, 3, 4⟩, 1, 0, 0⟩).trace =
      [Step.readFlags, Step.readImage] ∧
     (EVLFControl.execute (fun x => x) 5 ⟨false, false, false, false⟩
        CycleOutcome.noImage ⟨⟨2, 3, 4⟩, 1, 0, 0⟩).raised = none ∧
     commandsOf (EVLFControl.execute (fun x => x) 5 ⟨false, false, false, false⟩
        CycleOutcome.noImage ⟨⟨2, 3, 4⟩, 1, 0, 0⟩).trace = [] ∧
     (EVLFControl.execute (fun x => x) 5 ⟨false, false, false, false⟩
        (CycleOutcome.failure "boom") ⟨⟨2, 3, 4⟩, 1, 0, 0⟩).raised = some "boom" ∧
     (EVLFControl.execute (fun x => x) 5 ⟨false, false, false, false⟩
        (CycleOutcome.failure "boom") ⟨⟨2, 3, 4⟩, 1, 0, 0⟩).trace =
      [Step.readFlags, Step.readImage, Step.policyCall, Step.printMsg "boom"] ∧
     commandsOf (EVLFControl.execute (fun x => x) 5 ⟨false, false, false, false⟩
        (CycleOutcome.failure "boom") ⟨⟨2, 3, 4⟩, 1, 0, 0⟩).trace = [] ∧
     ((EVLFControl.execute (fun x => x) 5 ⟨false, false, false, false⟩
        CycleOutcome.noContour ⟨⟨2, 3, 4⟩, 1, 0, 0⟩).trace.countP isSleep = 0 ∧
      (EVLFControl.execute (fun x => x) 5 ⟨false, false, false, false⟩
        CycleOutcome.noImage ⟨⟨2, 3, 4⟩, 1, 0, 0⟩).trace.countP isSleep = 0 ∧
      (EVLFControl.execute (fun x => x) 5 ⟨false, false, false, false⟩
        (CycleOutcome.failure "boom") ⟨⟨2, 3, 4⟩, 1, 0, 0⟩).trace.countP isSleep = 0) ∧
     (EVLFControl.execute (fun x => x) 5 ⟨true, false, true, false⟩
        (CycleOutcome.ok 1 1) ⟨⟨2, 3, 4⟩, 1, 0, 0⟩).trace.countP isSleep = 1 ∧
     commandsOf (EVLFControl.execute (fun x => x) 5 ⟨true, false, true, false⟩
        (CycleOutcome.ok 1 1) ⟨⟨2, 3, 4⟩, 1, 0, 0⟩).trace = [⟨0, 2⟩] ∧
     (VLFCar.execute (fun x => x) CycleOutcome.noContour ⟨2, 3, 4⟩).raised = none ∧
     commandsOf (VLFCar.execute (fun x => x) CycleOutcome.noContour ⟨2, 3, 4⟩).trace = [] ∧
     (VLFCar.execute (fun x => x) CycleOutcome.noImage ⟨2, 3, 4⟩).raised = none ∧
     commandsOf (VLFCar.execute (fun x => x) CycleOutcome.noImage ⟨2, 3, 4⟩).trace = [] ∧
     (VLFCar.execute (fun x => x) (CycleOutcome.failure "boom") ⟨2, 3, 4⟩).raised =
       some "boom") :=
  ⟨rfl, rfl, rfl, exception_dispatch (fun x => x) 5 ⟨false, false, false, false⟩
    ⟨true, false, true, false⟩ ⟨⟨2, 3, 4⟩, 1, 0, 0⟩ ⟨2, 3, 4⟩ "boom"
    (CycleOutcome.ok 1 1) rfl rfl rfl⟩

/-- C6: in every observer cycle reading a non-None RGB image,
`EVLFObserver.execute` runs the perception pipeline once and republishes
every key of `detection_flags` to the shared flag map — set when the value
is true, cleared when it is false — so each shared flag equals the latest
detection value (last-write-wins); on a None image nothing runs and the
flags are untouched. -/
theorem observer_republishes_detection_flags {Image : Type} (img : Image)
    (detection_flags : List (String × Bool)) (events : String → Bool)
    (k : String) (v : Bool)
    (hnd : (detection_flags.map Prod.fst).Nodup)
    (hmem : (k, v) ∈ detection_flags) :
    (EVLFObserver.execute (some img) detection_flags events).pipelineRuns = 1 ∧
    (EVLFObserver.execute (some img) detection_flags events).events k = v ∧
    (EVLFObserver.execute (none : Option Image) detection_flags events).pipelineRuns = 0 ∧
    (EVLFObserver.execute (none : Option Image) detection_flags events).events = events :=
  ⟨rfl, applyFlags_of_mem detection_flags events k v hnd hmem, rfl, rfl⟩

theorem observer_republishes_detection_flags_witness :
    ((([("horizontal_line", false), ("red_light", true), ("stop_sign", false)] :
        List (String × Bool)).map Prod.fst).Nodup ∧
     ("red_light", true) ∈
       ([("horizontal_line", false), ("red_light", true), ("stop_sign", false)] :
        List (String × Bool))) ∧
    ((EVLFObserver.execute (some ())
        [("horizontal_line", false), ("red_light", true), ("stop_sign", false)]
        (fun _ => false)).pipelineRuns = 1 ∧
     (EVLFObserver.execute (some ())
        [("horizontal_line", false), ("red_light", true), ("stop_sign", false)]
        (fun _ => false)).events "red_light" = true ∧
     (EVLFObserver.execute (none : Option Unit)
        [("horizontal_line", false), ("red_light", true), ("stop_sign", false)]
        (fun _ => false)).pipelineRuns = 0 ∧
     (EVLFObserver.execute (none : Option Unit)
        [("horizontal_line", false), ("red_light", true), ("stop_sign", false)]
        (fun _ => false)).events = (fun _ => false)) :=
  ⟨⟨by decide, by decide⟩,
   observer_republishes_detection_flags ()
     [("horizontal_line", false), ("red_light", true), ("stop_sign", false)]
     (fun _ => false) "red_light" true (by decide) (by decide)⟩

/-- C8 counterexample: on the same image, policy state and cosine model, with
the shared event not set, `EVLFControl.execute` and `VLFCar.execute` write
different actuator commands — the former scales the throttle by
`abs(cos(2.0 * steering))`, the latter by `abs(cos(2.05 * steering))`. -/
theorem evlf_vlf_commands_differ :
    commandsOf (EVLFControl.execute (fun x => x) 0 ⟨false, false, false, false⟩
      (CycleOutcome.ok 1 1) ⟨⟨0, 0, 0⟩, 1, 0, 0⟩).trace ≠
    commandsOf (VLFCar.execute (fun x => x) (CycleOutcome.ok 1 1) ⟨0, 0, 0⟩).trace := by
  simp only [EVLFControl.execute, VLFCar.execute, handle_events, commandsOf]
  intro h
  have h2 := (Command.mk.injEq _ _ _ _ ▸ (List.cons.injEq _ _ _ _ ▸ h).1 : _ ∧ _).1
  rw [abs_of_pos (by norm_num : (0 : ℚ) < 41/20 * 1)] at h2
  norm_num at h2

/-- C8 amended: in every cycle with the shared event not set,
`EVLFControl.execute` writes one command with the same steering
`VLFCar.execute` writes on the same image and policy state, but not in
general the same throttle — `EVLFControl` scales the policy throttle by
`abs(cos(2.0 * steering))` (times reduce factor `1`) where `VLFCar` scales
it by `abs(cos(2.05 * steering))`; the two commands coincide when those two
cosine magnitudes agree (for instance at steering `0`). -/
theorem evlf_refines_vlf_up_to_cos_coefficient (mcos : ℚ → ℚ) (now : ℚ)
    (ev : EventWrapper) (s : ControlState) (st th : ℚ)
    (hset : ev.event_is_set = false) :
    commandsOf (EVLFControl.execute mcos now ev (CycleOutcome.ok st th) s).trace =
      [⟨th * |mcos (2 * st)| * 1, st⟩] ∧
    commandsOf (VLFCar.execute mcos (CycleOutcome.ok st th) s.policy).trace =
      [⟨th * |mcos (41/20 * st)|, st⟩] ∧
    (commandsOf (EVLFControl.execute mcos now ev (CycleOutcome.ok st th) s).trace).map
        Command.steering =
      (commandsOf (VLFCar.execute mcos (CycleOutcome.ok st th) s.policy).trace).map
        Command.steering ∧
    (|mcos (2 * st)| = |mcos (41/20 * st)| →
      commandsOf (EVLFControl.execute mcos now ev (CycleOutcome.ok st th) s).trace =
        commandsOf (VLFCar.execute mcos (CycleOutcome.ok st th) s.policy).trace) := by
  refine ⟨?_, ?_, ?_, fun hagree => ?_⟩ <;>
    simp [EVLFControl.execute, VLFCar.execute, handle_events, commandsOf, hset]
  simp [hagree]

theorem evlf_refines_vlf_up_to_cos_coefficient_witness :
    (⟨false, false, false, false⟩ : EventWrapper).event_is_set = false ∧
    (commandsOf (EVLFControl.execute (fun _ => (1 : ℚ)) 5 ⟨false, false, false, false⟩
        (CycleOutcome.ok 1 1) ⟨⟨2, 3, 4⟩, 1, 0, 0⟩).trace =
      [⟨1 * |(fun _ => (1 : ℚ)) (2 * 1)| * 1, 1⟩] ∧
     commandsOf (VLFCar.execute (fun _ => (1 : ℚ)) (CycleOutcome.ok 1 1) ⟨2, 3, 4⟩).trace =
      [⟨1 * |(fun _ => (1 : ℚ)) (41/20 * 1)|, 1⟩] ∧
     (commandsOf (EVLFControl.execute (fun _ => (1 : ℚ)) 5 ⟨false, false, false, false⟩
        (CycleOutcome.ok 1 1) ⟨⟨2, 3, 4⟩, 1, 0, 0⟩).trace).map Command.steering =
      (commandsOf (VLFCar.execute (fun _ => (1 : ℚ)) (CycleOutcome.ok 1 1)
        ⟨2, 3, 4⟩).trace).map Command.steering ∧
     (|(fun _ => (1 : ℚ)) (2 * 1)| = |(fun _ => (1 : ℚ)) (41/20 * 1)| →
       commandsOf (EVLFControl.execute (fun _ => (1 : ℚ)) 5 ⟨false, false, false, false⟩
          (CycleOutcome.ok 1 1) ⟨⟨2, 3, 4⟩, 1, 0, 0⟩).trace =
         commandsOf (VLFCar.execute (fun _ => (1 : ℚ)) (CycleOutcome.ok 1 1)
          ⟨2, 3, 4⟩).trace)) :=
  ⟨rfl, evlf_refines_vlf_up_to_cos_coefficient (fun _ => (1 : ℚ)) 5
    ⟨false, false, false, false⟩ ⟨⟨2, 3, 4⟩, 1, 0, 0⟩ 1 1 rfl⟩

/-- C9: the simulation bootstrap is one-shot and non-looping.  When the
connection fails it prints "Unable to connect to QLabs" and quits without
spawning anything or starting any model; when it succeeds it first destroys
all spawned actors and terminates all real-time models, then spawns exactly
one QCar at the given initial position and orientation (actor 0, waiting for
confirmation), spawns and attaches a camera, and starts the real-time model
exactly once. -/
theorem setup_is_one_shot (initialPosition initialOrientation : List ℚ)
    (rtModel : String) :
    setup false initialPosition initialOrientation rtModel =
      [SetupAction.system "cls", SetupAction.print "Connecting to QLabs...",
       SetupAction.print "Unable to connect to QLabs", SetupAction.quitProgram] ∧
    (setup false initialPosition initialOrientation rtModel).countP isSpawn = 0 ∧
    (setup false initialPosition initialOrientation rtModel).countP isModelStart = 0 ∧
    setup true initialPosition initialOrientation rtModel =
      [SetupAction.system "cls", SetupAction.print "Connecting to QLabs...",
       SetupAction.print "Connected to QLabs",
       SetupAction.destroyAllSpawnedActors,
       SetupAction.terminateAllRealTimeModels,
       SetupAction.spawnQCar 0 initialPosition initialOrientation true,
       SetupAction.spawnCamera [8484/1000, 1973/1000, 12209/1000]
         [-0, 748/1000, 792/1000],
       SetupAction.possess,
       SetupAction.startRealTimeModel rtModel] ∧
    (setup true initialPosition initialOrientation rtModel).countP isQCarSpawn = 1 ∧
    (setup true initialPosition initialOrientation rtModel).countP isModelStart = 1 :=
  ⟨rfl, rfl, rfl, rfl, rfl, rfl⟩

/-- C10: `handle_interprocess` on a full queue.  The claim says a failed
`put` is recovered by `get_nowait` plus a second `put`, so the item always
ends up in the queue and nothing is raised.  In the code the except clause
is `except Queue.Full` with `Queue` the `multiprocessing.Queue` factory,
which has no `Full` attribute; so on a full queue (`put` in a mode that
raises `Full`) the handler raises `AttributeError` instead and the item is
not inserted.  This theorem evaluates the embedding at that failing input:
a capacity-1 queue already holding one item. -/
theorem handle_interprocess_full_queue_attribute_error :
    (⟨[0], 1⟩ : PyQueue ℕ).put 1 = Except.error PyExc.full ∧
    handle_interprocess (⟨[0], 1⟩ : PyQueue ℕ) 1 =
      Except.error PyExc.attributeError ∧
    handle_interprocess (⟨[], 1⟩ : PyQueue ℕ) 1 =
      Except.ok (⟨[1], 1⟩ : PyQueue ℕ) :=
  ⟨rfl, rfl, rfl⟩

end Solution1
